import Mathlib

/-!
Verification of the weather-CLI lookup logic in `02_API.py`.

The program's core is `get_weather(city_name)`: it issues one HTTP GET and
maps the transport outcome and response to a Python dict — either
`{"error": msg}` or a six-field weather dict.  We embed the response
processing shallowly:

* `JSON` models the values `response.json()` can produce (the result of
  Python's `json` decoding: `None`, booleans, numbers, strings, lists,
  string-keyed dicts).  Numbers are modelled as rationals.
* The transport layer is modelled by its outcome: either a
  `requests.exceptions.RequestException` (carrying its rendered message) or
  an `HTTPResponse` with a status code and the outcome of `.json()` on its
  body (`none` when decoding raises `ValueError`).
* Python attribute/subscript errors raised by the body of `get_weather`
  (e.g. calling `.get` on a non-dict) are NOT caught by the source, so the
  embedding returns `Except PyExc PyDict`: `.error` means the Python call
  raises an unhandled exception, `.ok d` means it returns the dict `d`.
-/

/-- A decoded JSON value, as produced by `response.json()`. -/
inductive JSON where
  | null : JSON
  | bool (b : Bool) : JSON
  | num (q : ℚ) : JSON
  | str (s : String) : JSON
  | arr (elems : List JSON) : JSON
  | obj (entries : List (String × JSON)) : JSON

/-- A Python dict with string keys (the return type of `get_weather`). -/
abbrev PyDict := List (String × JSON)

/-- Unhandled Python exceptions the body of `get_weather` can raise. -/
inductive PyExc where
  /-- e.g. `'list' object has no attribute 'get'` -/
  | attributeError : PyExc
  /-- e.g. `'int' object is not subscriptable` -/
  | typeError : PyExc
  /-- subscripting a dict with a key it does not hold -/
  | keyError : PyExc
  /-- subscripting an empty sequence at index 0 -/
  | indexError : PyExc
deriving DecidableEq

/-- First value bound to `k` in an association list (Python dicts decoded
from JSON have unique keys, so first-match lookup is exact). -/
def assocLookup (k : String) : List (String × JSON) → Option JSON
  | [] => none
  | (k', v) :: rest => if k' = k then some v else assocLookup k rest

/-- Python `x.get(k, default)`: only dicts have `.get`; on any other decoded
JSON value the attribute access raises `AttributeError`. -/
def JSON.pyGet (x : JSON) (k : String) (default : JSON) : Except PyExc JSON :=
  match x with
  | .obj entries => .ok ((assocLookup k entries).getD default)
  | _ => .error .attributeError

/-- Python truthiness of a decoded JSON value (`if weather_list:`). -/
def JSON.truthy : JSON → Bool
  | .null => false
  | .bool b => b
  | .num q => q ≠ 0
  | .str s => s ≠ ""
  | .arr elems => !elems.isEmpty
  | .obj entries => !entries.isEmpty

/-- Python `x[0]` on a decoded JSON value: lists and strings index from the
front (`IndexError` when empty), dicts look up the integer key `0` — decoded
JSON dicts only hold string keys, so this is always a `KeyError` — and the
remaining values are not subscriptable (`TypeError`). -/
def JSON.subscriptZero : JSON → Except PyExc JSON
  | .arr [] => .error .indexError
  | .arr (x :: _) => .ok x
  | .str s => if s = "" then .error .indexError else .ok (.str (String.singleton s.front))
  | .obj _ => .error .keyError
  | _ => .error .typeError

/-- Python `str()` of a decoded JSON value, used by the f-strings in
`get_weather`.  Strings render verbatim, `None`/`True`/`False` by name,
containers by `repr` of their parts.  Integers render in decimal; the exact
`repr` of non-integer floats is immaterial to every claim below and is
rendered from the rational. -/
def pyNumStr (q : ℚ) : String :=
  if q.den = 1 then toString q.num else toString q

mutual

/-- Python `str()` (for the top level of an f-string interpolation). -/
def pyStr : JSON → String
  | .null => "None"
  | .bool true => "True"
  | .bool false => "False"
  | .num q => pyNumStr q
  | .str s => s
  | .arr elems => "[" ++ pyReprElems elems ++ "]"
  | .obj entries => "\x7b" ++ pyReprEntries entries ++ "\x7d"

/-- Python `repr()` of a decoded JSON value (used inside containers). -/
def pyRepr : JSON → String
  | .null => "None"
  | .bool true => "True"
  | .bool false => "False"
  | .num q => pyNumStr q
  | .str s => "'" ++ s ++ "'"
  | .arr elems => "[" ++ pyReprElems elems ++ "]"
  | .obj entries => "\x7b" ++ pyReprEntries entries ++ "\x7d"

/-- Comma-separated `repr`s of list elements. -/
def pyReprElems : List JSON → String
  | [] => ""
  | [x] => pyRepr x
  | x :: xs => pyRepr x ++ ", " ++ pyReprElems xs

/-- Comma-separated `repr`s of dict entries. -/
def pyReprEntries : List (String × JSON) → String
  | [] => ""
  | [(k, v)] => "'" ++ k ++ "': " ++ pyRepr v
  | (k, v) :: kvs => "'" ++ k ++ "': " ++ pyRepr v ++ ", " ++ pyReprEntries kvs

end

/-- An HTTP response as `get_weather` observes it: the status code and the
outcome of `response.json()` on the body (`none` when decoding the body
raises `ValueError`, `some v` when it yields the value `v`). -/
structure HTTPResponse where
  status_code : Nat
  body : Option JSON

/-- Outcome of the single `requests.get` call: either a
`RequestException` (with its rendered message, for the f-string
`f"Network error: {e}"`) or a received response. -/
inductive TransportOutcome where
  | exception (e : String) : TransportOutcome
  | response (r : HTTPResponse) : TransportOutcome

/-- Lines 51–55 of `02_API.py`: on a non-200 response, try to decode the
body and read its `message` field (default `"Unknown error"`); if decoding
raised `ValueError`, use `"Invalid response from server"`.  `.get` on a
decoded non-dict raises `AttributeError`, which the `except ValueError`
clause does not catch.  The result feeds an f-string, hence `pyStr`. -/
def serverMessage (body : Option JSON) : Except PyExc String :=
  match body with
  | some error_data => (error_data.pyGet "message" (.str "Unknown error")).map pyStr
  | none => .ok "Invalid response from server"

/-- Line 79 of `02_API.py`:
`weather_list[0].get("description") if weather_list else None`. -/
def descriptionOf (weather_list : JSON) : Except PyExc JSON :=
  if weather_list.truthy then do
    let first ← weather_list.subscriptZero
    first.pyGet "description" .null
  else
    pure JSON.null

/-- Lines 66–90 of `02_API.py`: the 200 path.  `data` is the decoded body;
fields are read in source order, each `.get`/subscript raising on non-dict
receivers exactly as Python would. -/
def extract200 (city_name : String) (data : JSON) : Except PyExc PyDict := do
  let main ← data.pyGet "main" (.obj [])
  let weather_list ← data.pyGet "weather" (.arr [])
  let wind ← data.pyGet "wind" (.obj [])
  let temperature ← main.pyGet "temp" .null
  let pressure ← main.pyGet "pressure" .null
  let humidity ← main.pyGet "humidity" .null
  let description ← descriptionOf weather_list
  let wind_speed ← wind.pyGet "speed" .null
  let city ← data.pyGet "name" (.str city_name)
  return [("city", city),
          ("temperature", temperature),
          ("pressure", pressure),
          ("humidity", humidity),
          ("description", description),
          ("wind_speed", wind_speed)]

/-- `get_weather(city_name)` from `02_API.py`, with the transport modelled
by its outcome.  `.ok d` means the Python function returns the dict `d`;
`.error exc` means it raises the unhandled exception `exc`. -/
def get_weather (city_name : String) (outcome : TransportOutcome) :
    Except PyExc PyDict :=
  match outcome with
  | .exception e =>
      .ok [("error", .str ("Network error: " ++ e))]
  | .response response =>
      if response.status_code ≠ 200 then do
        let message ← serverMessage response.body
        if response.status_code = 401 then
          return [("error", .str ("Invalid API key: " ++ message))]
        else if response.status_code = 404 then
          return [("error", .str ("City not found: " ++ city_name))]
        else
          return [("error",
            .str ("API request failed with status " ++
                  toString response.status_code ++ ": " ++ message))]
      else
        match response.body with
        | none => .ok [("error", .str "Failed to decode JSON response")]
        | some data => extract200 city_name data

/-- The `Failure` shape: a dict whose sole entry is keyed `"error"`
(matching the discrimination `if "error" in result` in
`print_weather_report` and the literals returned by `get_weather`). -/
def isFailureDict : PyDict → Bool
  | [(k, _)] => k = "error"
  | _ => false

/-- The `Success` shape: exactly the six weather keys, in order, and hence
no `"error"` key. -/
def isSuccessDict (d : PyDict) : Bool :=
  d.map Prod.fst =
    ["city", "temperature", "pressure", "humidity", "description", "wind_speed"]

/-- `isObj x` holds when the decoded value is a dict (supports `.get`). -/
def JSON.isObj : JSON → Bool
  | .obj _ => true
  | _ => false

/-- The entries of a decoded dict (`[]` on non-dicts; used only under
`isObj` hypotheses). -/
def JSON.objEntries : JSON → List (String × JSON)
  | .obj entries => entries
  | _ => []

/-- The `weather` value can be processed by line 79 without raising: it is
falsy, or it is a list whose first element is a dict. -/
def weatherWF (w : JSON) : Bool :=
  !w.truthy || (match w with | .arr (first :: _) => first.isObj | _ => false)

/-- A decoded 200 body (dict) whose present optional fields have the shapes
lines 72–80 handle without raising: `main` and `wind`, when present, are
dicts, and `weather` satisfies `weatherWF` (each field falls back to the
source's default when absent). -/
def bodyWF (entries : List (String × JSON)) : Bool :=
  ((assocLookup "main" entries).getD (.obj [])).isObj &&
  weatherWF ((assocLookup "weather" entries).getD (.arr [])) &&
  ((assocLookup "wind" entries).getD (.obj [])).isObj

/-- Value at `entries[k1][k2]` when `k1` maps to a dict holding `k2`. -/
def nestedLookup (entries : List (String × JSON)) (k1 k2 : String) : Option JSON :=
  match assocLookup k1 entries with
  | some (.obj inner) => assocLookup k2 inner
  | _ => none

theorem ok_bind {ε α β : Type} (a : α) (f : α → Except ε β) :
    (Except.ok a >>= f : Except ε β) = f a := rfl

theorem bind_eq_ok {ε α β : Type} {e : Except ε α} {f : α → Except ε β} {b : β}
    (h : (e >>= f) = .ok b) : ∃ a, e = .ok a ∧ f a = .ok b := by
  cases e with
  | ok a => exact ⟨a, rfl, h⟩
  | error _ => simp [Bind.bind, Except.bind] at h

theorem pyGet_of_isObj {x : JSON} (h : x.isObj = true) (k : String) (dflt : JSON) :
    x.pyGet k dflt = .ok ((assocLookup k x.objEntries).getD dflt) := by
  cases x <;> try simp [JSON.isObj] at h
  rfl

theorem descriptionOf_wf {w : JSON} (hw : weatherWF w = true) :
    ∃ v, descriptionOf w = .ok v ∧ (w.truthy = false → v = JSON.null) := by
  by_cases ht : w.truthy = true
  case neg =>
    refine ⟨.null, ?_, fun _ => rfl⟩
    simp only [descriptionOf, if_neg ht]
    rfl
  case pos =>
    simp only [weatherWF, ht, Bool.not_true, Bool.false_or] at hw
    rcases w with _ | b | q | s | elems | kvs
    · exact absurd ht (by simp [JSON.truthy])
    · exact absurd hw (by simp)
    · exact absurd hw (by simp)
    · exact absurd hw (by simp)
    · rcases elems with _ | ⟨first, rest⟩
      · exact absurd ht (by simp [JSON.truthy])
      · rcases first with _ | _ | _ | _ | els2 | fin
        · exact absurd hw (by simp [JSON.isObj])
        · exact absurd hw (by simp [JSON.isObj])
        · exact absurd hw (by simp [JSON.isObj])
        · exact absurd hw (by simp [JSON.isObj])
        · exact absurd hw (by simp [JSON.isObj])
        · exact ⟨_, rfl, fun hf => by simp [JSON.truthy] at hf⟩
    · exact absurd hw (by simp)

theorem extract200_ok_shape (c : String) (data : JSON) (d : PyDict)
    (h : extract200 c data = .ok d) :
    isSuccessDict d = true ∧ isFailureDict d = false := by
  unfold extract200 at h
  obtain ⟨main, hmain, h⟩ := bind_eq_ok h
  obtain ⟨wl, hwl, h⟩ := bind_eq_ok h
  obtain ⟨wind, hwind, h⟩ := bind_eq_ok h
  obtain ⟨temp, htemp, h⟩ := bind_eq_ok h
  obtain ⟨pres, hpres, h⟩ := bind_eq_ok h
  obtain ⟨hum, hhum, h⟩ := bind_eq_ok h
  obtain ⟨desc, hdesc, h⟩ := bind_eq_ok h
  obtain ⟨ws, hws, h⟩ := bind_eq_ok h
  obtain ⟨city, hcity, h⟩ := bind_eq_ok h
  simp only [pure, Except.pure, Except.ok.injEq] at h
  subst h
  simp [isSuccessDict, isFailureDict]

/-- Claim C2 (amended): whenever `get_weather` returns a dict at all, that
dict is exactly one of the two variants — the sole-key `error` Failure
shape, or the six-key Success shape — never both, never neither. -/
theorem get_weather_returned_dict_exactly_one_variant
    (city : String) (o : TransportOutcome) (d : PyDict)
    (h : get_weather city o = .ok d) :
    (isFailureDict d = true ∧ isSuccessDict d = false) ∨
    (isFailureDict d = false ∧ isSuccessDict d = true) := by
  cases o with
  | exception e =>
    simp only [get_weather, Except.ok.injEq] at h
    subst h
    left
    exact ⟨by simp [isFailureDict], by simp [isSuccessDict]⟩
  | response r =>
    rcases r with ⟨code, body⟩
    by_cases h200 : code = 200
    · subst h200
      rcases body with _ | data
      · simp only [get_weather, ne_eq, not_true_eq_false, if_false, reduceIte,
          Except.ok.injEq] at h
        subst h
        left
        exact ⟨by simp [isFailureDict], by simp [isSuccessDict]⟩
      · simp only [get_weather, ne_eq, not_true_eq_false, if_false, reduceIte] at h
        obtain ⟨h1, h2⟩ := extract200_ok_shape _ _ _ h
        right
        exact ⟨h2, h1⟩
    · simp only [get_weather, ne_eq, h200, not_false_eq_true, if_true, reduceIte] at h
      obtain ⟨m, hm, h⟩ := bind_eq_ok h
      split at h <;>
        [skip; split at h] <;>
        · simp only [pure, Except.pure, Except.ok.injEq] at h
          subst h
          left
          exact ⟨by simp [isFailureDict], by simp [isSuccessDict]⟩

theorem pyGet_obj (entries : List (String × JSON)) (k : String) (dflt : JSON) :
    (JSON.obj entries).pyGet k dflt = .ok ((assocLookup k entries).getD dflt) := rfl

theorem nested_getD_null (entries : List (String × JSON)) (k1 k2 : String)
    (hobj : ((assocLookup k1 entries).getD (.obj [])).isObj = true)
    (hnone : nestedLookup entries k1 k2 = none) :
    (assocLookup k2 ((assocLookup k1 entries).getD (.obj [])).objEntries).getD JSON.null
      = JSON.null := by
  rcases hM : assocLookup k1 entries with _ | m
  · simp [JSON.objEntries, assocLookup]
  · rw [hM] at hobj
    rcases m with _ | _ | _ | _ | _ | minner <;> simp [JSON.isObj] at hobj
    simp [nestedLookup, hM] at hnone
    simp [JSON.objEntries, hnone]

/-- Claim C4 (amended): for every 200 response whose body is a JSON object in
which `main` and `wind`, when present, are objects and `weather`, when
present, is falsy or a list headed by an object, `get_weather` returns a
`Success`; every absent field yields `None` in the result rather than a
Failure — a missing or empty `weather` list yields a `None` description, and
a missing `name` falls back to the input city name. -/
theorem get_weather_defensive_extraction
    (city : String) (entries : List (String × JSON)) (h : bodyWF entries = true) :
    ∃ d, get_weather city (.response ⟨200, some (.obj entries)⟩) = .ok d ∧
      isSuccessDict d = true ∧
      (assocLookup "name" entries = none → assocLookup "city" d = some (.str city)) ∧
      (nestedLookup entries "main" "temp" = none →
        assocLookup "temperature" d = some JSON.null) ∧
      (nestedLookup entries "main" "pressure" = none →
        assocLookup "pressure" d = some JSON.null) ∧
      (nestedLookup entries "main" "humidity" = none →
        assocLookup "humidity" d = some JSON.null) ∧
      ((assocLookup "weather" entries = none ∨
        assocLookup "weather" entries = some (.arr [])) →
        assocLookup "description" d = some JSON.null) ∧
      (nestedLookup entries "wind" "speed" = none →
        assocLookup "wind_speed" d = some JSON.null) := by
  simp only [bodyWF, Bool.and_eq_true] at h
  obtain ⟨⟨hmain, hweather⟩, hwind⟩ := h
  obtain ⟨descv, hdesc, hdesc0⟩ := descriptionOf_wf hweather
  have key : get_weather city (.response ⟨200, some (.obj entries)⟩) =
      .ok [("city", (assocLookup "name" entries).getD (.str city)),
           ("temperature", (assocLookup "temp"
              ((assocLookup "main" entries).getD (.obj [])).objEntries).getD .null),
           ("pressure", (assocLookup "pressure"
              ((assocLookup "main" entries).getD (.obj [])).objEntries).getD .null),
           ("humidity", (assocLookup "humidity"
              ((assocLookup "main" entries).getD (.obj [])).objEntries).getD .null),
           ("description", descv),
           ("wind_speed", (assocLookup "speed"
              ((assocLookup "wind" entries).getD (.obj [])).objEntries).getD .null)] := by
    simp [get_weather, extract200, pyGet_obj, pyGet_of_isObj hmain,
      pyGet_of_isObj hwind, hdesc, ok_bind]
  refine ⟨_, key, rfl, ?_, ?_, ?_, ?_, ?_, ?_⟩
  · intro hn
    simp [assocLookup, hn]
  · intro hnone
    simp [assocLookup, nested_getD_null entries "main" "temp" hmain hnone]
  · intro hnone
    simp [assocLookup, nested_getD_null entries "main" "pressure" hmain hnone]
  · intro hnone
    simp [assocLookup, nested_getD_null entries "main" "humidity" hmain hnone]
  · rintro (hc | hc)
    · have hnull : descv = JSON.null := hdesc0 (by rw [hc]; rfl)
      simp [assocLookup, hnull]
    · have hnull : descv = JSON.null := hdesc0 (by rw [hc]; rfl)
      simp [assocLookup, hnull]
  · intro hnone
    simp [assocLookup, nested_getD_null entries "wind" "speed" hwind hnone]

/-- Claim C5 (amended): for every 401 response whose body fails to decode or
decodes to a JSON object, `get_weather` returns the Failure
`"Invalid API key: " ++ server message`. -/
theorem get_weather_401_message (city : String) (body : Option JSON) (m : String)
    (hm : serverMessage body = .ok m) :
    get_weather city (.response ⟨401, body⟩) =
      .ok [("error", .str ("Invalid API key: " ++ m))] := by
  simp [get_weather, hm, ok_bind]

/-- Claim C6 (amended): for every 404 response whose body fails to decode or
decodes to a JSON object, `get_weather` returns the Failure
`"City not found: " ++ city`. -/
theorem get_weather_404_message (city : String) (body : Option JSON) (m : String)
    (hm : serverMessage body = .ok m) :
    get_weather city (.response ⟨404, body⟩) =
      .ok [("error", .str ("City not found: " ++ city))] := by
  simp [get_weather, hm, ok_bind]

/-- Claim C7 (amended): for every response whose status is none of 200, 401,
404 and whose body fails to decode or decodes to a JSON object, `get_weather`
returns the Failure `"API request failed with status <code>: " ++ m` where
the server message `m` is the object's `message` field when present, the
literal `"Unknown error"` when the object lacks one, and the literal
`"Invalid response from server"` when the body fails to decode. -/
theorem get_weather_other_status_message (city : String) (code : Nat)
    (body : Option JSON) (m : String)
    (h200 : code ≠ 200) (h401 : code ≠ 401) (h404 : code ≠ 404)
    (hm : serverMessage body = .ok m) :
    get_weather city (.response ⟨code, body⟩) =
      .ok [("error",
        .str ("API request failed with status " ++ toString code ++ ": " ++ m))] ∧
    (body = none → m = "Invalid response from server") ∧
    (∀ kvs, body = some (.obj kvs) → assocLookup "message" kvs = none →
      m = "Unknown error") ∧
    (∀ kvs s, body = some (.obj kvs) → assocLookup "message" kvs = some (.str s) →
      m = s) := by
  refine ⟨?_, ?_, ?_, ?_⟩
  · simp [get_weather, h200, h401, h404, hm, ok_bind]
  · rintro rfl
    simp only [serverMessage, Except.ok.injEq] at hm
    exact hm.symm
  · rintro kvs rfl hk
    simp only [serverMessage, JSON.pyGet, hk, Option.getD, Except.map,
      Except.ok.injEq] at hm
    exact hm.symm
  · rintro kvs s rfl hk
    simp only [serverMessage, JSON.pyGet, hk, Option.getD, Except.map, pyStr,
      Except.ok.injEq] at hm
    exact hm.symm

/-- Claim C8: for every 200 response whose body does not decode as JSON,
`get_weather` returns the Failure `"Failed to decode JSON response"`. -/
theorem get_weather_200_decode_failure (city : String) :
    get_weather city (.response ⟨200, none⟩) =
      .ok [("error", .str "Failed to decode JSON response")] := rfl

/-- Claim C9: for every transport failure of the single outbound request,
`get_weather` returns (with no retry — the model consumes exactly one
transport outcome) the Failure `"Network error: " ++ e`, which contains
`"Network error"` and embeds the transport error `e`. -/
theorem get_weather_network_error (city e : String) :
    get_weather city (.exception e) =
      .ok [("error", .str ("Network error: " ++ e))] := rfl

/-- Claim C10: on a 200 response whose decoded object maps `"name"` to JSON
null, the returned Success maps `"city"` to null, not to the input city
name: the fallback to the input city applies only when `"name"` is absent. -/
theorem get_weather_null_name_gives_null_city
    (city : String) (entries : List (String × JSON)) (d : PyDict)
    (hname : assocLookup "name" entries = some JSON.null)
    (h : get_weather city (.response ⟨200, some (.obj entries)⟩) = .ok d) :
    assocLookup "city" d = some JSON.null ∧
    assocLookup "city" d ≠ some (.str city) := by
  have hred : get_weather city (.response ⟨200, some (.obj entries)⟩) =
      extract200 city (.obj entries) := by
    simp [get_weather]
  rw [hred] at h
  unfold extract200 at h
  obtain ⟨main, hmain, h⟩ := bind_eq_ok h
  obtain ⟨wl, hwl, h⟩ := bind_eq_ok h
  obtain ⟨wind, hwind, h⟩ := bind_eq_ok h
  obtain ⟨temp, htemp, h⟩ := bind_eq_ok h
  obtain ⟨pres, hpres, h⟩ := bind_eq_ok h
  obtain ⟨hum, hhum, h⟩ := bind_eq_ok h
  obtain ⟨desc, hdesc, h⟩ := bind_eq_ok h
  obtain ⟨ws, hws, h⟩ := bind_eq_ok h
  obtain ⟨cityv, hcity, h⟩ := bind_eq_ok h
  simp only [pyGet_obj, hname, Option.getD, Except.ok.injEq] at hcity
  simp only [pure, Except.pure, Except.ok.injEq] at h
  subst h
  constructor
  · simp [assocLookup, ← hcity]
  · simp [assocLookup, ← hcity]

/-- Claim C1: refuted by the code.  A 200 response whose body decodes to the
JSON array `[1]` (valid JSON, not an object) makes `get_weather` raise an
uncaught `AttributeError` (`data.get` on a list, line 72) instead of
returning any result value, contradicting the function's own docstring
(`:return: dict with weather info OR dict with error`). -/
theorem get_weather_raises_on_nonobject_json :
    get_weather "London" (.response ⟨200, some (.arr [.num 1])⟩) =
      .error .attributeError := rfl

/-- Claim C2 counterexample: a 200 response whose body decodes to the JSON
string `"hi"` makes `get_weather` raise `AttributeError`, so at this outcome
it returns neither a Failure nor a Success dict. -/
theorem get_weather_may_return_no_dict :
    get_weather "Paris" (.response ⟨200, some (.str "hi")⟩) =
      .error .attributeError := rfl

/-- Witness for the C2 theorem at a concrete transport failure. -/
theorem get_weather_returned_dict_exactly_one_variant_witness :
    get_weather "Oslo" (.exception "boom") =
      .ok [("error", JSON.str "Network error: boom")] ∧
    ((isFailureDict [("error", JSON.str "Network error: boom")] = true ∧
      isSuccessDict [("error", JSON.str "Network error: boom")] = false) ∨
     (isFailureDict [("error", JSON.str "Network error: boom")] = false ∧
      isSuccessDict [("error", JSON.str "Network error: boom")] = true)) :=
  ⟨rfl, get_weather_returned_dict_exactly_one_variant "Oslo" (.exception "boom") _ rfl⟩

/-- Claim C3: on a 200 response with the documented London body,
`get_weather` returns the Success dict with city "London", temperature 15.2,
pressure 1012, humidity 70, description "clear sky" and wind speed 3.1. -/
theorem get_weather_london_example :
    get_weather "London" (.response ⟨200, some (.obj
      [("name", .str "London"),
       ("main", .obj [("temp", .num 15.2), ("pressure", .num 1012),
                      ("humidity", .num 70)]),
       ("weather", .arr [.obj [("description", .str "clear sky")]]),
       ("wind", .obj [("speed", .num 3.1)])])⟩) =
      .ok [("city", .str "London"), ("temperature", .num 15.2),
           ("pressure", .num 1012), ("humidity", .num 70),
           ("description", .str "clear sky"), ("wind_speed", .num 3.1)] := rfl

/-- Claim C4 counterexample: the 200 body `{"main": 5}` is a JSON object
with `main.temp` absent, yet `get_weather` raises `AttributeError`
(`(5).get("temp")`, line 76) instead of returning a Success with a `None`
temperature. -/
theorem get_weather_object_body_can_raise :
    get_weather "Rome" (.response ⟨200, some (.obj [("main", .num 5)])⟩) =
      .error .attributeError := rfl

/-- Witness for the C4 theorem at the empty 200 body `{}`: every optional
field is absent. -/
theorem get_weather_defensive_extraction_witness :
    bodyWF [] = true ∧
    (∃ d, get_weather "Pune" (.response ⟨200, some (.obj [])⟩) = .ok d ∧
      isSuccessDict d = true ∧
      (assocLookup "name" [] = none → assocLookup "city" d = some (.str "Pune")) ∧
      (nestedLookup [] "main" "temp" = none →
        assocLookup "temperature" d = some JSON.null) ∧
      (nestedLookup [] "main" "pressure" = none →
        assocLookup "pressure" d = some JSON.null) ∧
      (nestedLookup [] "main" "humidity" = none →
        assocLookup "humidity" d = some JSON.null) ∧
      ((assocLookup "weather" [] = none ∨
        assocLookup "weather" [] = some (.arr [])) →
        assocLookup "description" d = some JSON.null) ∧
      (nestedLookup [] "wind" "speed" = none →
        assocLookup "wind_speed" d = some JSON.null)) :=
  ⟨rfl, get_weather_defensive_extraction "Pune" [] rfl⟩

/-- Claim C5 counterexample: a 401 response whose body decodes to `[1]`
raises `AttributeError` (line 53) instead of returning an
"Invalid API key" Failure. -/
theorem get_weather_401_can_raise :
    get_weather "Oslo" (.response ⟨401, some (.arr [.num 1])⟩) =
      .error .attributeError := rfl

/-- Witness for the C5 theorem at a 401 body carrying a server message. -/
theorem get_weather_401_message_witness :
    serverMessage (some (.obj [("message", JSON.str "bad key")])) = .ok "bad key" ∧
    get_weather "Oslo"
        (.response ⟨401, some (.obj [("message", JSON.str "bad key")])⟩) =
      .ok [("error", JSON.str ("Invalid API key: " ++ "bad key"))] :=
  ⟨rfl, get_weather_401_message "Oslo" _ "bad key" rfl⟩

/-- Claim C6 counterexample: a 404 response whose body decodes to the JSON
number `3` raises `AttributeError` (line 53, reached before the 404 branch)
instead of returning a "City not found" Failure. -/
theorem get_weather_404_can_raise :
    get_weather "Oslo" (.response ⟨404, some (.num 3)⟩) =
      .error .attributeError := rfl

/-- Witness for the C6 theorem at a 404 with an undecodable body. -/
theorem get_weather_404_message_witness :
    serverMessage none = .ok "Invalid response from server" ∧
    get_weather "Atlantis" (.response ⟨404, none⟩) =
      .ok [("error", JSON.str ("City not found: " ++ "Atlantis"))] :=
  ⟨rfl, get_weather_404_message "Atlantis" none _ rfl⟩

/-- Claim C7 counterexample: a 500 response whose body decodes to the JSON
string `"x"` raises `AttributeError` (line 53) instead of returning an
"API request failed" Failure. -/
theorem get_weather_other_status_can_raise :
    get_weather "Oslo" (.response ⟨500, some (.str "x")⟩) =
      .error .attributeError := rfl

/-- Witness for the C7 theorem at a 500 with an undecodable body. -/
theorem get_weather_other_status_message_witness :
    (500 : Nat) ≠ 200 ∧ (500 : Nat) ≠ 401 ∧ (500 : Nat) ≠ 404 ∧
    serverMessage none = .ok "Invalid response from server" ∧
    (get_weather "Oslo" (.response ⟨500, none⟩) =
      .ok [("error", JSON.str ("API request failed with status " ++
        toString (500 : Nat) ++ ": " ++ "Invalid response from server"))] ∧
     ((none : Option JSON) = none →
        "Invalid response from server" = "Invalid response from server") ∧
     (∀ kvs, (none : Option JSON) = some (.obj kvs) →
        assocLookup "message" kvs = none →
        "Invalid response from server" = "Unknown error") ∧
     (∀ kvs s, (none : Option JSON) = some (.obj kvs) →
        assocLookup "message" kvs = some (.str s) →
        "Invalid response from server" = s)) :=
  ⟨by decide, by decide, by decide, rfl,
   get_weather_other_status_message "Oslo" 500 none "Invalid response from server"
     (by decide) (by decide) (by decide) rfl⟩

/-- Witness for the C10 theorem at the 200 body `{"name": null}`. -/
theorem get_weather_null_name_gives_null_city_witness :
    assocLookup "name" [("name", JSON.null)] = some JSON.null ∧
    get_weather "Delhi" (.response ⟨200, some (.obj [("name", JSON.null)])⟩) =
      .ok [("city", JSON.null), ("temperature", JSON.null), ("pressure", JSON.null),
           ("humidity", JSON.null), ("description", JSON.null),
           ("wind_speed", JSON.null)] ∧
    (assocLookup "city"
        [("city", JSON.null), ("temperature", JSON.null), ("pressure", JSON.null),
         ("humidity", JSON.null), ("description", JSON.null),
         ("wind_speed", JSON.null)] = some JSON.null ∧
     assocLookup "city"
        [("city", JSON.null), ("temperature", JSON.null), ("pressure", JSON.null),
         ("humidity", JSON.null), ("description", JSON.null),
         ("wind_speed", JSON.null)] ≠ some (.str "Delhi")) :=
  ⟨rfl, rfl,
   get_weather_null_name_gives_null_city "Delhi" [("name", JSON.null)] _ rfl rfl⟩
